import Mathlib

/-!
Verification development for the ATRO-LLM-MCP repository.

Shallow embedding of the server core: the in-memory Event Store
(server/routes.ts, class MemStorage), the Context Cache wrapper
(server/services/redisMcp.ts, class RedisMCP), the LLM classifier wrapper
(server/services/llm.ts, analyzeThreatWithLLM), the agent supervisor
(server/agents/pythonRunner.ts, class PythonAgent) and the Realtime Hub's
initial snapshot (server/routes.ts, sendInitialData).

Conventions of the embedding:
 * JavaScript `Date` values are modelled as `Int` (milliseconds since epoch);
   each operation that calls `new Date()` takes the current time as an
   explicit `now : Int` argument.
 * JavaScript objects with optional properties become structures with
   `Option` fields; the `x || d` falsy-defaulting idiom is modelled by
   dedicated helpers (`jsOrStr`, `jsOrNullNat`, `jsOrNullStr`) because in JS
   the empty string and the number 0 are falsy while every `Date` and every
   non-null object is truthy.
 * A JS `Map` keyed by numeric id whose values carry their own id is
   modelled as a `List` of records in insertion order; `Map.get` is
   `findById` and `Map.set` on an existing key is `replaceById` (which
   keeps the entry's position, as `Map.set` does).
 * Asynchronous methods are pure state transformers; external effects
   (process spawns, status writes, publishes) are returned as explicit
   effect values.
-/

namespace ATRO

/-- The open-ended JSON metadata bag attached to every record; its contents
never matter to the verified properties, so it is modelled as an
association list. -/
def Metadata : Type := List (String × String)

instance : DecidableEq Metadata := by
  unfold Metadata
  infer_instance

instance : Inhabited Metadata := ⟨([] : List (String × String))⟩

/-- JS `String.prototype.trim`: strip whitespace from both ends.  Defined
on the character list so that it reduces in the kernel. -/
def jsTrim (s : String) : String :=
  String.mk
    (((s.data.dropWhile Char.isWhitespace).reverse.dropWhile
        Char.isWhitespace).reverse)

/-- JS `s.startsWith(<left brace>)`: the first character is U+007B. -/
def startsWithLbrace (s : String) : Bool :=
  match s.data with
  | [] => false
  | c :: _ => c = Char.ofNat 123

/-- JS `s || d` for a possibly-absent string: `undefined`, `null` and the
empty string are falsy. -/
def jsOrStr (o : Option String) (d : String) : String :=
  match o with
  | none => d
  | some s => if s = "" then d else s

/-- JS `n || null` for a possibly-absent number: `undefined`, `null` and 0
are falsy and collapse to `null`. -/
def jsOrNullNat (o : Option Nat) : Option Nat :=
  match o with
  | none => none
  | some n => if n = 0 then none else some n

/-- JS `s || null` for a possibly-absent string: `undefined`, `null` and
the empty string collapse to `null`. -/
def jsOrNullStr (o : Option String) : Option String :=
  match o with
  | none => none
  | some s => if s = "" then none else some s

/-- `Map.get id` over an insertion-ordered entry list. -/
def findById (getId : α → Nat) (i : Nat) : List α → Option α
  | [] => none
  | x :: xs => if getId x = i then some x else findById getId i xs

/-- `Map.set id v` on an existing key: the entry with that id is replaced
in place, every other entry is untouched. -/
def replaceById (getId : α → Nat) (i : Nat) (v : α) : List α → List α
  | [] => []
  | x :: xs => (if getId x = i then v else x) :: replaceById getId i v xs

theorem findById_id (getId : α → Nat) (i : Nat) (a : α) :
    ∀ l : List α, findById getId i l = some a → getId a = i := by
  intro l
  induction l with
  | nil => intro h; simp [findById] at h
  | cons x xs ih =>
    intro h
    by_cases hx : getId x = i
    · simp [findById, hx] at h
      subst h; exact hx
    · simp [findById, hx] at h
      exact ih h

theorem findById_replaceById_eq (getId : α → Nat) (i : Nat) (v : α)
    (hv : getId v = i) :
    ∀ l : List α,
      findById getId i (replaceById getId i v l) =
        Option.map (fun _ => v) (findById getId i l) := by
  intro l
  induction l with
  | nil => rfl
  | cons x xs ih =>
    by_cases hx : getId x = i
    · simp [findById, replaceById, hx, hv]
    · simp [findById, replaceById, hx, ih]

theorem findById_replaceById_ne (getId : α → Nat) (i j : Nat) (v : α)
    (hv : getId v = i) (hij : j ≠ i) :
    ∀ l : List α,
      findById getId j (replaceById getId i v l) = findById getId j l := by
  intro l
  induction l with
  | nil => rfl
  | cons x xs ih =>
    by_cases hx : getId x = i
    · have hvj : ¬ getId v = j := by
        rw [hv]; exact fun h => hij h.symm
      have hxj : ¬ getId x = j := by
        rw [hx]; exact fun h => hij h.symm
      simp [findById, replaceById, hx, hvj, hxj, ih, Ne.symm hij]
    · simp [findById, replaceById, hx, ih]

/-- The comparator used by every `getXs` listing:
`(a, b) => new Date(b.timestamp).getTime() - new Date(a.timestamp).getTime()`,
i.e. descending by timestamp.  JS `Array.prototype.sort` is stable, which
matches `List.insertionSort`. -/
def tsGE (ts : α → Int) (a b : α) : Prop := ts b ≤ ts a

instance (ts : α → Int) : DecidableRel (tsGE ts) := fun a b =>
  inferInstanceAs (Decidable (ts b ≤ ts a))

instance (ts : α → Int) : IsTotal α (tsGE ts) :=
  ⟨fun a b => (le_total (ts b) (ts a)).imp id id⟩

instance (ts : α → Int) : IsTrans α (tsGE ts) :=
  ⟨fun _ _ _ h1 h2 => le_trans h2 h1⟩

/-! ## Data model (shared/schema.ts, `$inferSelect` row types) -/

structure Agent where
  id : Nat
  name : String
  type : String
  status : String
  lastActive : Int
  metadata : Metadata
  createdAt : Int
deriving DecidableEq

structure Alert where
  id : Nat
  severity : String
  title : String
  description : String
  source : String
  timestamp : Int
  status : String
  agentId : Option Nat
  incidentId : Option Nat
  metadata : Metadata
  createdAt : Int
deriving DecidableEq

structure Incident where
  id : Nat
  incidentKey : String
  type : String
  status : String
  source : String
  timestamp : Int
  metadata : Metadata
  createdAt : Int
deriving DecidableEq

structure LogRec where
  id : Nat
  level : String
  message : String
  source : String
  timestamp : Int
  agentId : Option Nat
  metadata : Metadata
  createdAt : Int
deriving DecidableEq

structure ResponseAction where
  id : Nat
  name : String
  trigger : String
  status : String
  incidentId : Option Nat
  lastExecuted : Option Int
  metadata : Metadata
  createdAt : Int
deriving DecidableEq

structure LlmInsight where
  id : Nat
  analysis : String
  timestamp : Int
  severity : String
  incidentId : Option Nat
  recommendation : Option String
  metadata : Metadata
  createdAt : Int
deriving DecidableEq

/-!
Insert types (`createInsertSchema(...).omit({id, createdAt})`).  Fields with
a database default are optional.  Although the TS insert types omit `id` and
`createdAt`, a runtime object may still carry those properties; they are kept
here as phantom `Option` fields so that the embedding can state that `create`
ignores them (the JS spread `{...insert, id, createdAt, ...}` places the
server-assigned values after the spread, overriding anything supplied).
-/

structure InsertAgent where
  name : String
  type : String
  status : Option String := none
  lastActive : Option Int := none
  metadata : Option Metadata := none
  id : Option Nat := none
  createdAt : Option Int := none
deriving DecidableEq

structure InsertAlert where
  severity : String
  title : String
  description : String
  source : String
  timestamp : Option Int := none
  status : Option String := none
  agentId : Option Nat := none
  incidentId : Option Nat := none
  metadata : Option Metadata := none
  id : Option Nat := none
  createdAt : Option Int := none
deriving DecidableEq

structure InsertIncident where
  incidentKey : String
  type : String
  status : Option String := none
  source : String
  timestamp : Option Int := none
  metadata : Option Metadata := none
  id : Option Nat := none
  createdAt : Option Int := none
deriving DecidableEq

structure InsertLog where
  level : String
  message : String
  source : String
  timestamp : Option Int := none
  agentId : Option Nat := none
  metadata : Option Metadata := none
  id : Option Nat := none
  createdAt : Option Int := none
deriving DecidableEq

structure InsertResponseAction where
  name : String
  trigger : String
  status : Option String := none
  incidentId : Option Nat := none
  lastExecuted : Option Int := none
  metadata : Option Metadata := none
  id : Option Nat := none
  createdAt : Option Int := none
deriving DecidableEq

structure InsertLlmInsight where
  analysis : String
  timestamp : Option Int := none
  severity : String
  incidentId : Option Nat := none
  recommendation : Option String := none
  metadata : Option Metadata := none
  id : Option Nat := none
  createdAt : Option Int := none
deriving DecidableEq

/-!
## In-memory Event Store (server/storage.ts, class MemStorage)

The six entity maps are insertion-ordered lists; `currentId` is the single
shared id counter (`this.currentId++`).  The `users` map takes no part in
any verified property and is omitted.  Every `create` appends (a `Map.set`
with a fresh key adds at the end of iteration order) and bumps the counter.
-/

structure MemStorage where
  agents : List Agent
  alerts : List Alert
  incidents : List Incident
  logs : List LogRec
  responseActions : List ResponseAction
  llmInsights : List LlmInsight
  currentId : Nat
deriving DecidableEq

/-- A bare store used to instantiate universally quantified theorems;
the source constructor additionally seeds four Agents and four
ResponseActions, which no verified property depends on. -/
def memEmpty : MemStorage :=
  { agents := [], alerts := [], incidents := [], logs := [],
    responseActions := [], llmInsights := [], currentId := 1 }

def MemStorage.createAgent (s : MemStorage) (now : Int) (ia : InsertAgent) :
    Agent × MemStorage :=
  let a : Agent :=
    { id := s.currentId
      name := ia.name
      type := ia.type
      status := jsOrStr ia.status "inactive"
      lastActive := ia.lastActive.getD now
      metadata := ia.metadata.getD []
      createdAt := now }
  (a, { s with agents := s.agents ++ [a], currentId := s.currentId + 1 })

def MemStorage.createAlert (s : MemStorage) (now : Int) (ia : InsertAlert) :
    Alert × MemStorage :=
  let a : Alert :=
    { id := s.currentId
      severity := ia.severity
      title := ia.title
      description := ia.description
      source := ia.source
      timestamp := ia.timestamp.getD now
      status := jsOrStr ia.status "new"
      agentId := jsOrNullNat ia.agentId
      incidentId := jsOrNullNat ia.incidentId
      metadata := ia.metadata.getD []
      createdAt := now }
  (a, { s with alerts := s.alerts ++ [a], currentId := s.currentId + 1 })

def MemStorage.createIncident (s : MemStorage) (now : Int)
    (ii : InsertIncident) : Incident × MemStorage :=
  let r : Incident :=
    { id := s.currentId
      incidentKey := ii.incidentKey
      type := ii.type
      status := jsOrStr ii.status "open"
      source := ii.source
      timestamp := ii.timestamp.getD now
      metadata := ii.metadata.getD []
      createdAt := now }
  (r, { s with incidents := s.incidents ++ [r], currentId := s.currentId + 1 })

def MemStorage.createLog (s : MemStorage) (now : Int) (il : InsertLog) :
    LogRec × MemStorage :=
  let r : LogRec :=
    { id := s.currentId
      level := il.level
      message := il.message
      source := il.source
      timestamp := il.timestamp.getD now
      agentId := jsOrNullNat il.agentId
      metadata := il.metadata.getD []
      createdAt := now }
  (r, { s with logs := s.logs ++ [r], currentId := s.currentId + 1 })

def MemStorage.createResponseAction (s : MemStorage) (now : Int)
    (ir : InsertResponseAction) : ResponseAction × MemStorage :=
  let r : ResponseAction :=
    { id := s.currentId
      name := ir.name
      trigger := ir.trigger
      status := jsOrStr ir.status "pending"
      incidentId := jsOrNullNat ir.incidentId
      lastExecuted := ir.lastExecuted
      metadata := ir.metadata.getD []
      createdAt := now }
  (r, { s with responseActions := s.responseActions ++ [r],
               currentId := s.currentId + 1 })

def MemStorage.createLlmInsight (s : MemStorage) (now : Int)
    (ii : InsertLlmInsight) : LlmInsight × MemStorage :=
  let r : LlmInsight :=
    { id := s.currentId
      analysis := ii.analysis
      timestamp := ii.timestamp.getD now
      severity := ii.severity
      incidentId := jsOrNullNat ii.incidentId
      recommendation := jsOrNullStr ii.recommendation
      metadata := ii.metadata.getD []
      createdAt := now }
  (r, { s with llmInsights := s.llmInsights ++ [r],
               currentId := s.currentId + 1 })

/-! Point lookups (`this.xs.get(id)`). -/

def MemStorage.getAgent (s : MemStorage) (i : Nat) : Option Agent :=
  findById Agent.id i s.agents

def MemStorage.getAlert (s : MemStorage) (i : Nat) : Option Alert :=
  findById Alert.id i s.alerts

def MemStorage.getIncident (s : MemStorage) (i : Nat) : Option Incident :=
  findById Incident.id i s.incidents

def MemStorage.getLog (s : MemStorage) (i : Nat) : Option LogRec :=
  findById LogRec.id i s.logs

def MemStorage.getResponseAction (s : MemStorage) (i : Nat) :
    Option ResponseAction :=
  findById ResponseAction.id i s.responseActions

def MemStorage.getLlmInsight (s : MemStorage) (i : Nat) : Option LlmInsight :=
  findById LlmInsight.id i s.llmInsights

/-!
Listings.  `getAgents` and `getResponseActions` take no limit and return
`Array.from(map.values())`, i.e. insertion order.  The four timestamped
listings always sort descending by timestamp and then apply
`limit ? xs.slice(0, limit) : xs` — note that the slice is skipped for a
falsy limit, i.e. both for an absent limit and for `limit = 0`.
-/

def MemStorage.getAgents (s : MemStorage) : List Agent := s.agents

def MemStorage.getResponseActions (s : MemStorage) : List ResponseAction :=
  s.responseActions

/-- `sort((a, b) => ts(b) - ts(a))` followed by the falsy-guarded slice. -/
def listNewestFirst (ts : α → Int) [DecidableEq α] (limit : Option Nat)
    (l : List α) : List α :=
  let sorted := List.insertionSort (tsGE ts) l
  match limit with
  | some n => if n ≠ 0 then sorted.take n else sorted
  | none => sorted

def MemStorage.getAlerts (s : MemStorage) (limit : Option Nat) : List Alert :=
  listNewestFirst Alert.timestamp limit s.alerts

def MemStorage.getIncidents (s : MemStorage) (limit : Option Nat) :
    List Incident :=
  listNewestFirst Incident.timestamp limit s.incidents

def MemStorage.getLogs (s : MemStorage) (limit : Option Nat) : List LogRec :=
  listNewestFirst LogRec.timestamp limit s.logs

def MemStorage.getLlmInsights (s : MemStorage) (limit : Option Nat) :
    List LlmInsight :=
  listNewestFirst LlmInsight.timestamp limit s.llmInsights

/-!
Updates.  A patch is a `Partial<Insert*>`: every field optional, and `id`
and `createdAt` are not part of the insert types at all, so a patch cannot
name them.  The JS merge `{...record, ...updates}` overrides exactly the
properties present in the patch (with no falsy defaulting), which is
`Option.getD` field by field.  For nullable columns the patch value is
itself an `Option`, so the patch field is `Option (Option _)`: the outer
layer is presence, the inner is the value-or-null.
`update` on a missing id returns `undefined` and leaves the map untouched;
on a present id it `Map.set`s the merged record in place.
-/

structure AgentPatch where
  name : Option String := none
  type : Option String := none
  status : Option String := none
  lastActive : Option Int := none
  metadata : Option Metadata := none
deriving DecidableEq

def applyAgentPatch (a : Agent) (p : AgentPatch) : Agent :=
  { a with
    name := p.name.getD a.name
    type := p.type.getD a.type
    status := p.status.getD a.status
    lastActive := p.lastActive.getD a.lastActive
    metadata := p.metadata.getD a.metadata }

def MemStorage.updateAgent (s : MemStorage) (i : Nat) (p : AgentPatch) :
    Option Agent × MemStorage :=
  match findById Agent.id i s.agents with
  | none => (none, s)
  | some a =>
    let a2 := applyAgentPatch a p
    (some a2, { s with agents := replaceById Agent.id i a2 s.agents })

structure AlertPatch where
  severity : Option String := none
  title : Option String := none
  description : Option String := none
  source : Option String := none
  timestamp : Option Int := none
  status : Option String := none
  agentId : Option (Option Nat) := none
  incidentId : Option (Option Nat) := none
  metadata : Option Metadata := none
deriving DecidableEq

def applyAlertPatch (a : Alert) (p : AlertPatch) : Alert :=
  { a with
    severity := p.severity.getD a.severity
    title := p.title.getD a.title
    description := p.description.getD a.description
    source := p.source.getD a.source
    timestamp := p.timestamp.getD a.timestamp
    status := p.status.getD a.status
    agentId := p.agentId.getD a.agentId
    incidentId := p.incidentId.getD a.incidentId
    metadata := p.metadata.getD a.metadata }

def MemStorage.updateAlert (s : MemStorage) (i : Nat) (p : AlertPatch) :
    Option Alert × MemStorage :=
  match findById Alert.id i s.alerts with
  | none => (none, s)
  | some a =>
    let a2 := applyAlertPatch a p
    (some a2, { s with alerts := replaceById Alert.id i a2 s.alerts })

structure IncidentPatch where
  incidentKey : Option String := none
  type : Option String := none
  status : Option String := none
  source : Option String := none
  timestamp : Option Int := none
  metadata : Option Metadata := none
deriving DecidableEq

def applyIncidentPatch (a : Incident) (p : IncidentPatch) : Incident :=
  { a with
    incidentKey := p.incidentKey.getD a.incidentKey
    type := p.type.getD a.type
    status := p.status.getD a.status
    source := p.source.getD a.source
    timestamp := p.timestamp.getD a.timestamp
    metadata := p.metadata.getD a.metadata }

def MemStorage.updateIncident (s : MemStorage) (i : Nat) (p : IncidentPatch) :
    Option Incident × MemStorage :=
  match findById Incident.id i s.incidents with
  | none => (none, s)
  | some a =>
    let a2 := applyIncidentPatch a p
    (some a2, { s with incidents := replaceById Incident.id i a2 s.incidents })

structure ResponseActionPatch where
  name : Option String := none
  trigger : Option String := none
  status : Option String := none
  incidentId : Option (Option Nat) := none
  lastExecuted : Option (Option Int) := none
  metadata : Option Metadata := none
deriving DecidableEq

def applyResponseActionPatch (a : ResponseAction) (p : ResponseActionPatch) :
    ResponseAction :=
  { a with
    name := p.name.getD a.name
    trigger := p.trigger.getD a.trigger
    status := p.status.getD a.status
    incidentId := p.incidentId.getD a.incidentId
    lastExecuted := p.lastExecuted.getD a.lastExecuted
    metadata := p.metadata.getD a.metadata }

def MemStorage.updateResponseAction (s : MemStorage) (i : Nat)
    (p : ResponseActionPatch) : Option ResponseAction × MemStorage :=
  match findById ResponseAction.id i s.responseActions with
  | none => (none, s)
  | some a =>
    let a2 := applyResponseActionPatch a p
    (some a2, { s with
                responseActions :=
                  replaceById ResponseAction.id i a2 s.responseActions })

/-- Every id stored anywhere in the six entity maps. -/
def MemStorage.allIds (s : MemStorage) : List Nat :=
  s.agents.map Agent.id ++ s.alerts.map Alert.id ++
  s.incidents.map Incident.id ++ s.logs.map LogRec.id ++
  s.responseActions.map ResponseAction.id ++ s.llmInsights.map LlmInsight.id

/-- The store invariant maintained by `currentId++`: every stored id was
taken from an earlier value of the counter. -/
def MemStorage.wf (s : MemStorage) : Prop :=
  ∀ i ∈ s.allIds, i < s.currentId

instance (s : MemStorage) : Decidable s.wf :=
  inferInstanceAs (Decidable (∀ i ∈ s.allIds, i < s.currentId))

theorem MemStorage.currentId_not_mem_allIds (s : MemStorage) (h : s.wf) :
    s.currentId ∉ s.allIds := by
  intro hmem
  exact absurd (h s.currentId hmem) (lt_irrefl _)

/-!
## Context Cache (server/services/redisMcp.ts, class RedisMCP)

The backing key/value client (networked or in-process fallback) is
modelled as an entry list; `set` overwrites an existing key in place or
appends, `expire` attaches a ttl.  Every public method begins with
`if (!this.connected) return <unavailable>;`, which is the part the
verified property is about.  Stored values are kept as the raw strings;
the JSON round-trip through `JSON.stringify`/`JSON.parse` is the
identity on them and is not modelled separately.
-/

structure CacheEntry where
  key : String
  value : String
  ttl : Option Nat
deriving DecidableEq

def setKey (kv : List CacheEntry) (k v : String) (ttl : Option Nat) :
    List CacheEntry :=
  if kv.any (fun e => e.key = k) then
    kv.map (fun e => if e.key = k then ⟨k, v, ttl⟩ else e)
  else
    kv ++ [⟨k, v, ttl⟩]

def getKey (kv : List CacheEntry) (k : String) : Option String :=
  (kv.find? (fun e => e.key = k)).map CacheEntry.value

structure RedisState where
  connected : Bool
  kv : List CacheEntry
  subs : List String
deriving DecidableEq

/-- Context keys live under the prefix string "mcp:context:" (12 chars). -/
def RedisState.storeContext (s : RedisState) (type data : String) :
    RedisState :=
  if s.connected = false then s
  else { s with kv := setKey s.kv ("mcp:context:" ++ type) data (some 86400) }

def RedisState.getContext (s : RedisState) (type : String) : Option String :=
  if s.connected = false then none
  else getKey s.kv ("mcp:context:" ++ type)

/-- Agent statuses live under the prefix string "mcp:agent:" (10 chars);
they are stored with no expiry. -/
def RedisState.updateAgentStatus (s : RedisState) (agentId status : String) :
    RedisState :=
  if s.connected = false then s
  else { s with kv := setKey s.kv ("mcp:agent:" ++ agentId) status none }

def RedisState.getAgentStatus (s : RedisState) (agentId : String) :
    Option String :=
  if s.connected = false then none
  else getKey s.kv ("mcp:agent:" ++ agentId)

/-- `publish` returns the messages actually handed to the backing client;
it never touches the cache state. -/
def RedisState.publish (s : RedisState) (channel message : String) :
    List (String × String) :=
  if s.connected = false then []
  else [(channel, message)]

def RedisState.subscribe (s : RedisState) (channel : String) : RedisState :=
  if s.connected = false then s
  else { s with subs := s.subs ++ [channel] }

def RedisState.getAllContexts (s : RedisState) : List (String × String) :=
  if s.connected = false then []
  else
    (s.kv.filter (fun e => e.key.startsWith "mcp:context:")).map
      (fun e => (e.key.drop 12, e.value))

def RedisState.getAllAgentStatuses (s : RedisState) : List (String × String) :=
  if s.connected = false then []
  else
    (s.kv.filter (fun e => e.key.startsWith "mcp:agent:")).map
      (fun e => (e.key.drop 10, e.value))

/-!
## LLM classifier wrapper (server/services/llm.ts, analyzeThreatWithLLM)

The whole body sits in one `try` block, so a thrown OpenAI call (timeout,
quota, network) and a `JSON.parse` failure on the returned content reach
the same `catch`, which returns the fixed default object.  On a parsed
response each field is falsy-defaulted, and the confidence is clamped with
`Math.max(0, Math.min(1, result.confidence || 0.5))` (so an explicit 0 is
falsy and becomes 0.5).
-/

structure ThreatAnalysisResult where
  severity : String
  analysis : String
  recommendation : String
  confidence : ℚ
deriving DecidableEq

inductive LLMOutcome where
  | callFailed
  | badJson
  | parsed (severity analysis recommendation : Option String)
      (confidence : Option ℚ)
deriving DecidableEq

def llmFailureResult : ThreatAnalysisResult :=
  { severity := "medium"
    analysis := "Failed to analyze threat with LLM. API may be unavailable."
    recommendation := "Please check API credentials and try again."
    confidence := 0 }

def analyzeThreatWithLLM : LLMOutcome → ThreatAnalysisResult
  | .callFailed => llmFailureResult
  | .badJson => llmFailureResult
  | .parsed sev an rec conf =>
    { severity := jsOrStr sev "medium"
      analysis := jsOrStr an "No analysis provided"
      recommendation := jsOrStr rec "No recommendation provided"
      confidence :=
        max 0 (min 1 (match conf with
          | none => 1/2
          | some c => if c = 0 then 1/2 else c)) }

/-!
## Agent Supervisor (server/agents/pythonRunner.ts, class PythonAgent)

The mutable per-agent state is `(process, isRunning)`; effects that leave
the supervisor — spawning the worker and recording a status — are returned
explicitly.  `updateAgentStatus(status)` writes the same status string to
both the Event Store (`storage.updateAgent(id, {status, lastActive})`) and
the Context Cache (`redis.updateAgentStatus(id, status)`); one
`StatusEffect` value stands for that pair of writes.
-/

structure PyAgentState where
  agentId : Nat
  agentName : String
  pythonScript : String
  hasProcess : Bool
  isRunning : Bool
deriving DecidableEq

structure StatusEffect where
  agentId : Nat
  storeStatus : String
  cacheStatus : String
deriving DecidableEq

def updateAgentStatusEff (agentId : Nat) (status : String) : StatusEffect :=
  ⟨agentId, status, status⟩

structure StartOutcome where
  result : Bool
  spawns : Nat
  statusEffects : List StatusEffect
deriving DecidableEq

/-- PythonAgent.start on its synchronous success path: an already-running
agent returns `true` immediately with no effect; otherwise the worker is
spawned, `isRunning` is set and status "active" is recorded.  A spawn
failure is delivered asynchronously through the `error` event handler
(`onSpawnError` below), not by a throw here. -/
def PyAgentState.start (a : PyAgentState) : PyAgentState × StartOutcome :=
  if a.isRunning then
    (a, { result := true, spawns := 0, statusEffects := [] })
  else
    ({ a with hasProcess := true, isRunning := true },
     { result := true, spawns := 1,
       statusEffects := [updateAgentStatusEff a.agentId "active"] })

/-- The `close` event handler: fires whenever the worker process exits,
with its exit code.  The code is only logged; the handler unconditionally
clears `isRunning` and records status "error". -/
def PyAgentState.onClose (a : PyAgentState) (_code : Int) :
    PyAgentState × List StatusEffect :=
  ({ a with isRunning := false },
   [updateAgentStatusEff a.agentId "error"])

/-- The `error` event handler: fires on a launch failure.  Same effect as
`close`: clear `isRunning`, record status "error". -/
def PyAgentState.onSpawnError (a : PyAgentState) :
    PyAgentState × List StatusEffect :=
  ({ a with isRunning := false },
   [updateAgentStatusEff a.agentId "error"])

/-!
### Worker stdout handling (PythonAgent.handleAgentOutput)

The method trims the chunk; an empty chunk is dropped.  If the trimmed
chunk starts with a left brace it is fed to `JSON.parse` inside an inner
`try`: a parse failure is only logged, and a parsed object dispatches on
`data.type` with `log`/`alert`/`incident` recognised — any other type
falls through with no action.  Only a chunk that does not look like JSON
is stored verbatim as an info-level Log.  `JSON.parse` is an external
builtin; it enters the embedding as an explicit argument, and a parsed
object is summarised by the fields the dispatch reads.
-/

structure AgentMsgData where
  type : Option String := none
  level : Option String := none
  message : Option String := none
  severity : Option String := none
  title : Option String := none
  description : Option String := none
  incidentType : Option String := none
  metadata : Option Metadata := none
deriving DecidableEq

inductive JsonParseResult where
  | ok (data : AgentMsgData)
  | err
deriving DecidableEq

/-- The Event Store `create` calls issued by `handleAgentOutput`, with the
exact argument fields of each call site (`message`, `title`, `description`
and the incident `type` come straight off the parsed object and may be
absent at runtime). -/
inductive StoreEffect where
  | createLog (level : String) (message : Option String) (source : String)
      (metadata : Metadata)
  | createAlert (severity : String) (title description : Option String)
      (source : String) (status : String) (metadata : Metadata)
  | createIncident (incidentId : String) (type : Option String)
      (status : String) (source : String) (metadata : Metadata)
deriving DecidableEq

/-- `rand` stands for the `Math.random()` draw behind the generated
incident key INC-<1000..9999>. -/
def incKeyOfRand (rand : Nat) : String :=
  "INC-" ++ toString (1000 + rand % 9000)

def handleAgentOutput (agentName : String) (rand : Nat)
    (parseJson : String → JsonParseResult) (output : String) :
    List StoreEffect :=
  if jsTrim output = "" then []
  else if startsWithLbrace (jsTrim output) then
    match parseJson output with
    | .ok d =>
      if d.type = some "log" then
        [.createLog (jsOrStr d.level "info") d.message agentName
          (d.metadata.getD [])]
      else if d.type = some "alert" then
        [.createAlert (jsOrStr d.severity "medium") d.title d.description
          agentName "new" (d.metadata.getD [])]
      else if d.type = some "incident" then
        [.createIncident (incKeyOfRand rand) d.incidentType "open" agentName
          (d.metadata.getD [])]
      else []
    | .err => []
  else
    [.createLog "info" (some output) agentName []]

/-!
## Realtime Hub initial snapshot (server/routes.ts, sendInitialData)

On a new connection the hub performs one `ws.send` carrying all the
queries below plus two literal status blocks; the `mcpStatus` block is a
hard-coded constant and does not consult the Context Cache.  The
`/api/mcp/status` route, by contrast, derives the cache's actual
health/status view from `redis.isConnected()` and the fallback flag.
-/

structure McpStatusView where
  brokerStatus : String
  redisCache : String
  cacheSize : String
deriving DecidableEq

structure InitialData where
  agents : List Agent
  alerts : List Alert
  incidents : List Incident
  logs : List LogRec
  responseActions : List ResponseAction
  llmInsights : List LlmInsight
  mcpStatus : McpStatusView
deriving DecidableEq

def sendInitialData (s : MemStorage) : List InitialData :=
  [{ agents := s.getAgents
     alerts := s.getAlerts (some 10)
     incidents := s.getIncidents (some 10)
     logs := s.getLogs (some 20)
     responseActions := s.getResponseActions
     llmInsights := s.getLlmInsights (some 10)
     mcpStatus := ⟨"healthy", "connected", "245 MB"⟩ }]

/-- The cache health/status view computed by the GET /api/mcp/status
route from the cache's live connection state. -/
def mcpStatusRoute (connected useMemoryFallback : Bool) : McpStatusView :=
  { brokerStatus := if connected then "healthy" else "error"
    redisCache :=
      if useMemoryFallback then "in-memory (fallback)"
      else if connected then "connected" else "disconnected"
    cacheSize := if useMemoryFallback then "0 MB" else "245 MB" }

/-!
## Generic listing lemmas and concrete instances used by the theorems
-/

theorem listNewestFirst_none_perm (ts : α → Int) [DecidableEq α]
    (l : List α) : List.Perm (listNewestFirst ts none l) l :=
  List.perm_insertionSort _ l

theorem listNewestFirst_none_sorted (ts : α → Int) [DecidableEq α]
    (l : List α) : List.Sorted (tsGE ts) (listNewestFirst ts none l) :=
  List.sorted_insertionSort _ l

theorem listNewestFirst_some (ts : α → Int) [DecidableEq α] (l : List α)
    (n : Nat) (hn : n ≠ 0) :
    listNewestFirst ts (some n) l = (listNewestFirst ts none l).take n := by
  simp [listNewestFirst, hn]

theorem listNewestFirst_zero (ts : α → Int) [DecidableEq α] (l : List α) :
    listNewestFirst ts (some 0) l = listNewestFirst ts none l := by
  simp [listNewestFirst]

theorem listNewestFirst_length_le (ts : α → Int) [DecidableEq α]
    (l : List α) (n : Nat) (hn : n ≠ 0) :
    (listNewestFirst ts (some n) l).length ≤ n := by
  rw [listNewestFirst_some ts l n hn]
  simp only [List.length_take]
  exact Nat.min_le_left n (listNewestFirst ts none l).length

/-- Membership in the pooled id list, unfolded to the six maps. -/
theorem MemStorage.mem_allIds (s : MemStorage) (i : Nat) :
    i ∈ s.allIds ↔
      i ∈ s.agents.map Agent.id ∨ i ∈ s.alerts.map Alert.id ∨
      i ∈ s.incidents.map Incident.id ∨ i ∈ s.logs.map LogRec.id ∨
      i ∈ s.responseActions.map ResponseAction.id ∨
      i ∈ s.llmInsights.map LlmInsight.id := by
  simp [MemStorage.allIds, List.mem_append, or_assoc]

theorem MemStorage.wf_succ (s s2 : MemStorage) (h : s.wf)
    (hc : s2.currentId = s.currentId + 1)
    (hsub : ∀ i ∈ s2.allIds, i ∈ s.allIds ∨ i = s.currentId) : s2.wf := by
  intro i hi
  rcases hsub i hi with hx | hx
  · rw [hc]; exact Nat.lt_succ_of_lt (h i hx)
  · rw [hx, hc]; exact Nat.lt_succ_self _

/-- JSON.parse applied to the two-brace chunk yields an object with no
properties: every field the dispatch reads is absent. -/
def parseEmptyObj : String → JsonParseResult := fun _ => JsonParseResult.ok {}

/-- A structured worker log line and the result JSON.parse gives on it. -/
def logLineJson : String :=
  "\x7b\"type\":\"log\",\"level\":\"warning\",\"message\":\"disk full\"\x7d"

def parseLogLine : String → JsonParseResult := fun _ =>
  JsonParseResult.ok
    { type := some "log", level := some "warning",
      message := some "disk full" }

/-- Two concrete alerts inserted oldest-first, the first with the smaller
timestamp, so that insertion order and newest-first order differ. -/
def alertT1 : Alert :=
  { id := 1, severity := "low", title := "first", description := "d1",
    source := "seed", timestamp := 100, status := "new", agentId := none,
    incidentId := none, metadata := [], createdAt := 100 }

def alertT2 : Alert :=
  { id := 2, severity := "high", title := "second", description := "d2",
    source := "seed", timestamp := 200, status := "new", agentId := none,
    incidentId := none, metadata := [], createdAt := 200 }

def memTwoAlerts : MemStorage :=
  { memEmpty with alerts := [alertT1, alertT2], currentId := 3 }

/-- A store holding one agent, for instantiating the update theorems. -/
def agentW : Agent :=
  { id := 1, name := "Network Monitor", type := "network",
    status := "inactive", lastActive := 50, metadata := [], createdAt := 10 }

def memOneAgent : MemStorage :=
  { memEmpty with agents := [agentW], currentId := 2 }

def incidentW : Incident :=
  { id := 3, incidentKey := "INC-1001", type := "intrusion",
    status := "open", source := "seed", timestamp := 60, metadata := [],
    createdAt := 60 }

def raW : ResponseAction :=
  { id := 4, name := "Block Malicious IP", trigger := "IDS Alert",
    status := "enabled", incidentId := none, lastExecuted := none,
    metadata := [], createdAt := 20 }

def pyRunning : PyAgentState :=
  { agentId := 1, agentName := "Network Monitor",
    pythonScript := "network_monitor.py", hasProcess := true,
    isRunning := true }

def pyFresh : PyAgentState :=
  { agentId := 2, agentName := "Log Parser",
    pythonScript := "log_parser.py", hasProcess := false,
    isRunning := false }

/-- A cache whose backing connection is currently down (fallback not yet
swapped in), holding one stale entry. -/
def redisDown : RedisState :=
  { connected := false,
    kv := [{ key := "mcp:agent:1", value := "active", ttl := none }],
    subs := [] }

/-! ## Claim theorems -/

/-- C2: starting an already-running Agent is idempotent.  If the
supervisor state has `isRunning` set, a further `start` returns success
(`true`) immediately, spawns no worker process and records nothing; and
starting a non-running Agent twice spawns exactly one worker and records
exactly one status transition (the status string the code writes on start
is "active", recorded into both the Event Store and the Context Cache by
`updateAgentStatus`), with the second call returning success and leaving
the state exactly as after the first. -/
theorem c2_start_idempotent (a b : PyAgentState) :
    (a.isRunning = true →
      a.start = (a, { result := true, spawns := 0, statusEffects := [] })) ∧
    (b.isRunning = false →
      b.start.1.start = (b.start.1,
        { result := true, spawns := 0, statusEffects := [] }) ∧
      b.start.2.result = true ∧
      b.start.2.spawns + b.start.1.start.2.spawns = 1 ∧
      b.start.2.statusEffects ++ b.start.1.start.2.statusEffects =
        [updateAgentStatusEff b.agentId "active"] ∧
      b.start.1.hasProcess = true ∧ b.start.1.isRunning = true) := by
  constructor
  · intro h
    simp [PyAgentState.start, h]
  · intro h
    simp [PyAgentState.start, h]

theorem c2_start_idempotent_witness :
    pyRunning.start =
      (pyRunning, { result := true, spawns := 0, statusEffects := [] }) ∧
    pyFresh.start.2.spawns + pyFresh.start.1.start.2.spawns = 1 ∧
    pyFresh.start.2.statusEffects ++ pyFresh.start.1.start.2.statusEffects =
      [updateAgentStatusEff 2 "active"] :=
  ⟨(c2_start_idempotent pyRunning pyFresh).1 rfl,
   ((c2_start_idempotent pyRunning pyFresh).2 rfl).2.2.1,
   ((c2_start_idempotent pyRunning pyFresh).2 rfl).2.2.2.1⟩

/-- C4: `update` on an id that is not in the store returns
`undefined`/not-found and leaves the store completely unchanged, for every
entity kind that supports update (Agent, Alert, Incident, ResponseAction);
the functions are total, so no exception reaches the caller, and the
returned store is the input store itself, so no record is created. -/
theorem c4_update_missing_id (s : MemStorage) (i : Nat) (pa : AgentPatch)
    (pb : AlertPatch) (pc : IncidentPatch) (pd : ResponseActionPatch) :
    (s.getAgent i = none → s.updateAgent i pa = (none, s)) ∧
    (s.getAlert i = none → s.updateAlert i pb = (none, s)) ∧
    (s.getIncident i = none → s.updateIncident i pc = (none, s)) ∧
    (s.getResponseAction i = none →
      s.updateResponseAction i pd = (none, s)) := by
  refine ⟨fun h => ?_, fun h => ?_, fun h => ?_, fun h => ?_⟩
  · simp only [MemStorage.getAgent] at h
    simp [MemStorage.updateAgent, h]
  · simp only [MemStorage.getAlert] at h
    simp [MemStorage.updateAlert, h]
  · simp only [MemStorage.getIncident] at h
    simp [MemStorage.updateIncident, h]
  · simp only [MemStorage.getResponseAction] at h
    simp [MemStorage.updateResponseAction, h]

theorem c4_update_missing_id_witness :
    memEmpty.updateAgent 5 {} = (none, memEmpty) ∧
    memEmpty.updateAlert 5 {} = (none, memEmpty) ∧
    memEmpty.updateIncident 5 {} = (none, memEmpty) ∧
    memEmpty.updateResponseAction 5 {} = (none, memEmpty) :=
  ⟨(c4_update_missing_id memEmpty 5 {} {} {} {}).1 rfl,
   (c4_update_missing_id memEmpty 5 {} {} {} {}).2.1 rfl,
   (c4_update_missing_id memEmpty 5 {} {} {} {}).2.2.1 rfl,
   (c4_update_missing_id memEmpty 5 {} {} {} {}).2.2.2 rfl⟩

/-- C5: when the external classifier call fails for any reason — the API
call throws (timeout, quota, network) or its content is not parseable
JSON — `analyzeThreatWithLLM` returns the fixed default result with
severity "medium", confidence 0 and the fixed placeholder analysis
string.  The embedded function is total, so no exception propagates. -/
theorem c5_llm_failure_default :
    analyzeThreatWithLLM LLMOutcome.callFailed = llmFailureResult ∧
    analyzeThreatWithLLM LLMOutcome.badJson = llmFailureResult ∧
    llmFailureResult.severity = "medium" ∧
    llmFailureResult.confidence = 0 ∧
    llmFailureResult.analysis =
      "Failed to analyze threat with LLM. API may be unavailable." :=
  ⟨rfl, rfl, rfl, rfl, rfl⟩

/-- C6: whenever the Context Cache's backing connection is not currently
established, every cache operation is a no-op returning its "unavailable"
result — `storeContext`, `updateAgentStatus` and `subscribe` return the
state unchanged, `getContext` and `getAgentStatus` return null,
`publish` hands nothing to the client, `getAllContexts` and
`getAllAgentStatuses` return the empty map — and none of them raises. -/
theorem c6_cache_unavailable_noop (s : RedisState)
    (t d aid st ch msg : String) (h : s.connected = false) :
    s.storeContext t d = s ∧
    s.getContext t = none ∧
    s.updateAgentStatus aid st = s ∧
    s.getAgentStatus aid = none ∧
    s.publish ch msg = [] ∧
    s.subscribe ch = s ∧
    s.getAllContexts = [] ∧
    s.getAllAgentStatuses = [] := by
  refine ⟨?_, ?_, ?_, ?_, ?_, ?_, ?_, ?_⟩ <;>
    simp [RedisState.storeContext, RedisState.getContext,
      RedisState.updateAgentStatus, RedisState.getAgentStatus,
      RedisState.publish, RedisState.subscribe, RedisState.getAllContexts,
      RedisState.getAllAgentStatuses, h]

theorem c6_cache_unavailable_noop_witness :
    redisDown.storeContext "agents" "data" = redisDown ∧
    redisDown.getContext "agents" = none ∧
    redisDown.updateAgentStatus "1" "stopped" = redisDown ∧
    redisDown.getAgentStatus "1" = none ∧
    redisDown.publish "mcp:events" "msg" = [] ∧
    redisDown.subscribe "mcp:events" = redisDown ∧
    redisDown.getAllContexts = [] ∧
    redisDown.getAllAgentStatuses = [] :=
  c6_cache_unavailable_noop redisDown "agents" "data" "1" "stopped"
    "mcp:events" "msg" rfl

/-- C9: whenever a managed worker process exits — the `close` handler, for
any exit code including 0 — or fails to launch — the `error` handler — the
supervisor clears `isRunning` and records status "error" to both the Event
Store and the Context Cache; every status either handler records is
"error", so no exit path records a non-error status. -/
theorem c9_exit_records_error (a : PyAgentState) (code : Int) :
    a.onClose code = ({ a with isRunning := false },
      [updateAgentStatusEff a.agentId "error"]) ∧
    a.onSpawnError = ({ a with isRunning := false },
      [updateAgentStatusEff a.agentId "error"]) ∧
    (a.onClose code).1.isRunning = false ∧
    (∀ e ∈ (a.onClose code).2,
      e.storeStatus = "error" ∧ e.cacheStatus = "error") ∧
    (∀ e ∈ a.onSpawnError.2,
      e.storeStatus = "error" ∧ e.cacheStatus = "error") := by
  refine ⟨rfl, rfl, rfl, ?_, ?_⟩ <;>
    simp [PyAgentState.onClose, PyAgentState.onSpawnError,
      updateAgentStatusEff]

/-- C1 counterexample: the worker line consisting of the two braces is a
well-formed JSON object with no recognized kind; the claim requires it to
be stored verbatim as an info-level Log attributed to the Agent, but the
dispatch emits no Event Store call at all for it. -/
theorem c1_counterexample :
    handleAgentOutput "Log Parser" 0 parseEmptyObj "\x7b\x7d" = [] ∧
    handleAgentOutput "Log Parser" 0 parseEmptyObj "\x7b\x7d" ≠
      [StoreEffect.createLog "info" (some "\x7b\x7d") "Log Parser" []] := by
  constructor
  · decide
  · decide

/-- C1 (amended): for every line of worker stdout, a line parsing as JSON
with recognized kind "log"/"alert"/"incident" produces exactly the
corresponding Event Store create call with the line's fields and the Agent
as source; a nonempty line that does not look like JSON (its trimmed form
does not start with a brace) is stored verbatim as an info-level Log
attributed to the Agent; but a JSON-looking line that fails to parse or
whose kind is unrecognized is dropped with only a diagnostic — no store
call is made; a blank line is also dropped. -/
theorem c1_stdout_dispatch (agentName : String) (rand : Nat)
    (parseJson : String → JsonParseResult) (output : String) :
    (jsTrim output = "" →
      handleAgentOutput agentName rand parseJson output = []) ∧
    (jsTrim output ≠ "" → startsWithLbrace (jsTrim output) = false →
      handleAgentOutput agentName rand parseJson output =
        [StoreEffect.createLog "info" (some output) agentName []]) ∧
    (startsWithLbrace (jsTrim output) = true → parseJson output = .err →
      handleAgentOutput agentName rand parseJson output = []) ∧
    (∀ d : AgentMsgData, startsWithLbrace (jsTrim output) = true →
      parseJson output = .ok d →
      (d.type = some "log" →
        handleAgentOutput agentName rand parseJson output =
          [StoreEffect.createLog (jsOrStr d.level "info") d.message
            agentName (d.metadata.getD [])]) ∧
      (d.type = some "alert" →
        handleAgentOutput agentName rand parseJson output =
          [StoreEffect.createAlert (jsOrStr d.severity "medium") d.title
            d.description agentName "new" (d.metadata.getD [])]) ∧
      (d.type = some "incident" →
        handleAgentOutput agentName rand parseJson output =
          [StoreEffect.createIncident (incKeyOfRand rand) d.incidentType
            "open" agentName (d.metadata.getD [])]) ∧
      (d.type ≠ some "log" → d.type ≠ some "alert" →
        d.type ≠ some "incident" →
        handleAgentOutput agentName rand parseJson output = [])) := by
  have hne : ∀ _ : startsWithLbrace (jsTrim output) = true,
      jsTrim output ≠ "" := by
    intro h he
    rw [he] at h
    simp [startsWithLbrace] at h
  refine ⟨fun h => ?_, fun h1 h2 => ?_, fun h1 h2 => ?_,
    fun d h1 h2 => ⟨fun ht => ?_, fun ht => ?_, fun ht => ?_,
      fun ht1 ht2 ht3 => ?_⟩⟩
  · simp [handleAgentOutput, h]
  · simp [handleAgentOutput, h1, h2]
  · simp [handleAgentOutput, hne h1, h1, h2]
  · simp [handleAgentOutput, hne h1, h1, h2, ht]
  · have hne2 : d.type ≠ some "log" := by simp [ht]
    simp [handleAgentOutput, hne h1, h1, h2, ht, hne2]
  · have hne2 : d.type ≠ some "log" := by simp [ht]
    have hne3 : d.type ≠ some "alert" := by simp [ht]
    simp [handleAgentOutput, hne h1, h1, h2, ht, hne2, hne3]
  · simp [handleAgentOutput, hne h1, h1, h2, ht1, ht2, ht3]

theorem c1_stdout_dispatch_witness :
    handleAgentOutput "Log Parser" 0 parseLogLine logLineJson =
      [StoreEffect.createLog "warning" (some "disk full") "Log Parser" []] := by
  have h :=
    ((c1_stdout_dispatch "Log Parser" 0 parseLogLine logLineJson).2.2.2
      { type := some "log", level := some "warning",
        message := some "disk full" }
      (by decide) rfl).1 rfl
  simpa [jsOrStr] using h

/-- C7 counterexample: with two alerts stored in insertion order
oldest-first, `getAlerts` with no limit returns them newest-first by
timestamp, not in insertion order as the claim states. -/
theorem c7_counterexample :
    memTwoAlerts.alerts = [alertT1, alertT2] ∧
    memTwoAlerts.getAlerts none = [alertT2, alertT1] ∧
    memTwoAlerts.getAlerts none ≠ memTwoAlerts.alerts := by
  refine ⟨rfl, by decide, by decide⟩

/-- C7 (amended): for the four timestamped entity kinds (Alert, Incident,
Log, Insight), the listing always returns the stored records ordered
newest-first by timestamp: with a nonzero limit it returns the first
`limit` of that ordering (hence at most `limit` records), and with no
limit — or a zero limit, which the falsy guard treats as absent — it
returns all records, still newest-first, not in insertion order.  The
Agent and ResponseAction listings take no limit and return insertion
order. -/
theorem c7_list_ordering (s : MemStorage) (n : Nat) :
    List.Perm (s.getAlerts none) s.alerts ∧
    List.Sorted (tsGE Alert.timestamp) (s.getAlerts none) ∧
    (n ≠ 0 → s.getAlerts (some n) = (s.getAlerts none).take n ∧
      (s.getAlerts (some n)).length ≤ n) ∧
    s.getAlerts (some 0) = s.getAlerts none ∧
    List.Perm (s.getIncidents none) s.incidents ∧
    List.Sorted (tsGE Incident.timestamp) (s.getIncidents none) ∧
    (n ≠ 0 → s.getIncidents (some n) = (s.getIncidents none).take n) ∧
    List.Perm (s.getLogs none) s.logs ∧
    List.Sorted (tsGE LogRec.timestamp) (s.getLogs none) ∧
    (n ≠ 0 → s.getLogs (some n) = (s.getLogs none).take n) ∧
    List.Perm (s.getLlmInsights none) s.llmInsights ∧
    List.Sorted (tsGE LlmInsight.timestamp) (s.getLlmInsights none) ∧
    (n ≠ 0 → s.getLlmInsights (some n) = (s.getLlmInsights none).take n) ∧
    s.getAgents = s.agents ∧
    s.getResponseActions = s.responseActions := by
  refine ⟨listNewestFirst_none_perm _ _, listNewestFirst_none_sorted _ _,
    fun hn => ⟨listNewestFirst_some _ _ _ hn,
      listNewestFirst_length_le _ _ _ hn⟩,
    listNewestFirst_zero _ _,
    listNewestFirst_none_perm _ _, listNewestFirst_none_sorted _ _,
    fun hn => listNewestFirst_some _ _ _ hn,
    listNewestFirst_none_perm _ _, listNewestFirst_none_sorted _ _,
    fun hn => listNewestFirst_some _ _ _ hn,
    listNewestFirst_none_perm _ _, listNewestFirst_none_sorted _ _,
    fun hn => listNewestFirst_some _ _ _ hn,
    rfl, rfl⟩

theorem c7_list_ordering_witness :
    memTwoAlerts.getAlerts (some 1) = (memTwoAlerts.getAlerts none).take 1 ∧
    (memTwoAlerts.getAlerts (some 1)).length ≤ 1 :=
  (c7_list_ordering memTwoAlerts 1).2.2.1 (by decide)

theorem c9_exit_records_error_witness :
    pyRunning.onClose 0 = ({ pyRunning with isRunning := false },
      [updateAgentStatusEff 1 "error"]) ∧
    (updateAgentStatusEff 1 "error").storeStatus = "error" ∧
    (updateAgentStatusEff 1 "error").cacheStatus = "error" := by
  refine ⟨(c9_exit_records_error pyRunning 0).1, ?_, ?_⟩
  · exact ((c9_exit_records_error pyRunning 0).2.2.2.1 _ (by decide)).1
  · exact ((c9_exit_records_error pyRunning 0).2.2.2.2 _ (by decide)).2

/-- C8 counterexample: the snapshot's cache health/status block is a
hard-coded constant.  With the Context Cache's backing connection down,
the route that computes the cache's actual health/status view reports
error/disconnected, yet the snapshot sent to a newly connected client
still carries healthy/connected — so the snapshot does not contain the
Context Cache's health/status view. -/
theorem c8_counterexample :
    (sendInitialData memEmpty).length = 1 ∧
    (∀ m ∈ sendInitialData memEmpty,
      m.mcpStatus = ⟨"healthy", "connected", "245 MB"⟩) ∧
    mcpStatusRoute false false = ⟨"error", "disconnected", "245 MB"⟩ ∧
    (⟨"healthy", "connected", "245 MB"⟩ : McpStatusView) ≠
      mcpStatusRoute false false := by
  refine ⟨rfl, by decide, rfl, by decide⟩

/-- C8 (amended): on every new client connection the Realtime Hub sends
exactly one consolidated snapshot message containing the current Agents,
the most-recent 10 Alerts, 10 Incidents, 10 Insights and 20 Logs, and the
ResponseActions, together with a fixed static health/status placeholder
block (healthy/connected) that is not derived from the Context Cache's
actual state. -/
theorem c8_initial_snapshot (s : MemStorage) :
    (sendInitialData s).length = 1 ∧
    (∀ m ∈ sendInitialData s,
      m.agents = s.getAgents ∧
      m.alerts = s.getAlerts (some 10) ∧ m.alerts.length ≤ 10 ∧
      m.incidents = s.getIncidents (some 10) ∧ m.incidents.length ≤ 10 ∧
      m.logs = s.getLogs (some 20) ∧ m.logs.length ≤ 20 ∧
      m.llmInsights = s.getLlmInsights (some 10) ∧
      m.llmInsights.length ≤ 10 ∧
      m.responseActions = s.getResponseActions ∧
      m.mcpStatus = ⟨"healthy", "connected", "245 MB"⟩) := by
  refine ⟨rfl, ?_⟩
  intro m hm
  simp only [sendInitialData, List.mem_singleton] at hm
  subst hm
  refine ⟨rfl, rfl, ?_, rfl, ?_, rfl, ?_, rfl, ?_, rfl, rfl⟩
  · exact listNewestFirst_length_le _ _ 10 (by decide)
  · exact listNewestFirst_length_le _ _ 10 (by decide)
  · exact listNewestFirst_length_le _ _ 20 (by decide)
  · exact listNewestFirst_length_le _ _ 10 (by decide)

theorem c8_initial_snapshot_witness :
    (sendInitialData memEmpty).length = 1 ∧
    ({ agents := [], alerts := [], incidents := [], logs := [],
       responseActions := [], llmInsights := [],
       mcpStatus := ⟨"healthy", "connected", "245 MB"⟩ } :
      InitialData).alerts.length ≤ 10 ∧
    ({ agents := [], alerts := [], incidents := [], logs := [],
       responseActions := [], llmInsights := [],
       mcpStatus := ⟨"healthy", "connected", "245 MB"⟩ } :
      InitialData).mcpStatus = ⟨"healthy", "connected", "245 MB"⟩ := by
  refine ⟨(c8_initial_snapshot memEmpty).1, ?_, ?_⟩
  · exact ((c8_initial_snapshot memEmpty).2 _ (by decide)).2.2.1
  · exact ((c8_initial_snapshot memEmpty).2 _ (by decide)).2.2.2.2.2.2.2.2.2.2

/-- C3 counterexample: a client-supplied `timestamp` field is not ignored
by `create` — `createAlert` stores the supplied value 12345 rather than
the server time 99999, contradicting the claim that any client-supplied
timestamp field in the input record is ignored. -/
theorem c3_counterexample :
    (memEmpty.createAlert 99999
      { severity := "high", title := "X", description := "Y",
        source := "tester", timestamp := some 12345 }).1.timestamp =
      12345 ∧
    (12345 : Int) ≠ 99999 := by
  exact ⟨rfl, by decide⟩

/-- C3 (amended): for every valid create call on every entity kind, the
returned record's identity is the current value of the shared counter and
is fresh — distinct from every id already stored in any of the six maps —
and its `createdAt` creation timestamp is assigned server-side; any
client-supplied `id` or `createdAt` value in the input record is ignored
(the result of `create` is unchanged by them), and the counter invariant
is preserved so later creates stay fresh.  (The separate `timestamp`
event-time field, by contrast, is taken from the input when supplied and
only defaults to the server time — see the counterexample.) -/
theorem c3_create_server_identity (s : MemStorage) (now : Int)
    (ia : InsertAgent) (ib : InsertAlert) (ii : InsertIncident)
    (il : InsertLog) (ir : InsertResponseAction) (li : InsertLlmInsight)
    (h : s.wf) :
    ((s.createAgent now ia).1.id = s.currentId ∧
     (s.createAgent now ia).1.id ∉ s.allIds ∧
     (s.createAgent now ia).1.createdAt = now ∧
     (∀ ci cc, s.createAgent now { ia with id := ci, createdAt := cc } =
       s.createAgent now ia) ∧
     (s.createAgent now ia).2.wf) ∧
    ((s.createAlert now ib).1.id = s.currentId ∧
     (s.createAlert now ib).1.id ∉ s.allIds ∧
     (s.createAlert now ib).1.createdAt = now ∧
     (∀ ci cc, s.createAlert now { ib with id := ci, createdAt := cc } =
       s.createAlert now ib) ∧
     (s.createAlert now ib).2.wf) ∧
    ((s.createIncident now ii).1.id = s.currentId ∧
     (s.createIncident now ii).1.id ∉ s.allIds ∧
     (s.createIncident now ii).1.createdAt = now ∧
     (∀ ci cc, s.createIncident now { ii with id := ci, createdAt := cc } =
       s.createIncident now ii) ∧
     (s.createIncident now ii).2.wf) ∧
    ((s.createLog now il).1.id = s.currentId ∧
     (s.createLog now il).1.id ∉ s.allIds ∧
     (s.createLog now il).1.createdAt = now ∧
     (∀ ci cc, s.createLog now { il with id := ci, createdAt := cc } =
       s.createLog now il) ∧
     (s.createLog now il).2.wf) ∧
    ((s.createResponseAction now ir).1.id = s.currentId ∧
     (s.createResponseAction now ir).1.id ∉ s.allIds ∧
     (s.createResponseAction now ir).1.createdAt = now ∧
     (∀ ci cc,
       s.createResponseAction now { ir with id := ci, createdAt := cc } =
         s.createResponseAction now ir) ∧
     (s.createResponseAction now ir).2.wf) ∧
    ((s.createLlmInsight now li).1.id = s.currentId ∧
     (s.createLlmInsight now li).1.id ∉ s.allIds ∧
     (s.createLlmInsight now li).1.createdAt = now ∧
     (∀ ci cc, s.createLlmInsight now { li with id := ci, createdAt := cc } =
       s.createLlmInsight now li) ∧
     (s.createLlmInsight now li).2.wf) := by
  refine ⟨⟨rfl, s.currentId_not_mem_allIds h, rfl, fun ci cc => rfl, ?_⟩,
    ⟨rfl, s.currentId_not_mem_allIds h, rfl, fun ci cc => rfl, ?_⟩,
    ⟨rfl, s.currentId_not_mem_allIds h, rfl, fun ci cc => rfl, ?_⟩,
    ⟨rfl, s.currentId_not_mem_allIds h, rfl, fun ci cc => rfl, ?_⟩,
    ⟨rfl, s.currentId_not_mem_allIds h, rfl, fun ci cc => rfl, ?_⟩,
    ⟨rfl, s.currentId_not_mem_allIds h, rfl, fun ci cc => rfl, ?_⟩⟩ <;>
  · apply MemStorage.wf_succ s _ h rfl
    intro i hi
    simp only [MemStorage.allIds, MemStorage.createAgent,
      MemStorage.createAlert, MemStorage.createIncident, MemStorage.createLog,
      MemStorage.createResponseAction, MemStorage.createLlmInsight,
      List.map_append, List.mem_append, List.map_cons, List.map_nil,
      List.mem_cons, List.not_mem_nil, or_false] at hi ⊢
    tauto

theorem c3_create_server_identity_witness :
    memEmpty.wf ∧
    (memEmpty.createAlert 7
      { severity := "low", title := "t", description := "d",
        source := "src" }).1.id = 1 ∧
    (memEmpty.createAlert 7
      { severity := "low", title := "t", description := "d",
        source := "src" }).1.createdAt = 7 ∧
    memEmpty.createAlert 7
      { severity := "low", title := "t", description := "d",
        source := "src", id := some 42, createdAt := some 999 } =
      memEmpty.createAlert 7
        { severity := "low", title := "t", description := "d",
          source := "src" } := by
  refine ⟨by decide, ?_, ?_, ?_⟩
  · exact (c3_create_server_identity memEmpty 7
      { name := "n", type := "t" }
      { severity := "low", title := "t", description := "d", source := "src" }
      { incidentKey := "k", type := "t", source := "src" }
      { level := "info", message := "m", source := "src" }
      { name := "n", trigger := "tr" }
      { analysis := "a", severity := "low" }
      (by decide)).2.1.1
  · exact (c3_create_server_identity memEmpty 7
      { name := "n", type := "t" }
      { severity := "low", title := "t", description := "d", source := "src" }
      { incidentKey := "k", type := "t", source := "src" }
      { level := "info", message := "m", source := "src" }
      { name := "n", trigger := "tr" }
      { analysis := "a", severity := "low" }
      (by decide)).2.1.2.2.1
  · exact (c3_create_server_identity memEmpty 7
      { name := "n", type := "t" }
      { severity := "low", title := "t", description := "d", source := "src" }
      { incidentKey := "k", type := "t", source := "src" }
      { level := "info", message := "m", source := "src" }
      { name := "n", trigger := "tr" }
      { analysis := "a", severity := "low" }
      (by decide)).2.1.2.2.2.1 (some 42) (some 999)

/-- C10: for every entity kind with an update operation and every id
present in the store, `update(id, patch)` returns the stored record with
exactly the fields named in the patch replaced by the patched values
(`Option.getD`: a named field takes the patch value, an unnamed field
keeps its old value) while the record's identity and its `createdAt`
creation timestamp are unchanged (patches range over `Partial<Insert*>`,
which omit both); the updated record is what a subsequent get returns,
and every other id still maps to its old record. -/
theorem c10_update_frame (s : MemStorage) (i : Nat)
    (aa : Agent) (pa : AgentPatch) (ab : Alert) (pb : AlertPatch)
    (ac : Incident) (pc : IncidentPatch)
    (ad : ResponseAction) (pd : ResponseActionPatch) :
    (s.getAgent i = some aa →
      (s.updateAgent i pa).1 = some
        { id := aa.id, name := pa.name.getD aa.name,
          type := pa.type.getD aa.type, status := pa.status.getD aa.status,
          lastActive := pa.lastActive.getD aa.lastActive,
          metadata := pa.metadata.getD aa.metadata,
          createdAt := aa.createdAt } ∧
      (s.updateAgent i pa).2.getAgent i = (s.updateAgent i pa).1 ∧
      (∀ j, j ≠ i → (s.updateAgent i pa).2.getAgent j = s.getAgent j)) ∧
    (s.getAlert i = some ab →
      (s.updateAlert i pb).1 = some
        { id := ab.id, severity := pb.severity.getD ab.severity,
          title := pb.title.getD ab.title,
          description := pb.description.getD ab.description,
          source := pb.source.getD ab.source,
          timestamp := pb.timestamp.getD ab.timestamp,
          status := pb.status.getD ab.status,
          agentId := pb.agentId.getD ab.agentId,
          incidentId := pb.incidentId.getD ab.incidentId,
          metadata := pb.metadata.getD ab.metadata,
          createdAt := ab.createdAt } ∧
      (s.updateAlert i pb).2.getAlert i = (s.updateAlert i pb).1 ∧
      (∀ j, j ≠ i → (s.updateAlert i pb).2.getAlert j = s.getAlert j)) ∧
    (s.getIncident i = some ac →
      (s.updateIncident i pc).1 = some
        { id := ac.id, incidentKey := pc.incidentKey.getD ac.incidentKey,
          type := pc.type.getD ac.type, status := pc.status.getD ac.status,
          source := pc.source.getD ac.source,
          timestamp := pc.timestamp.getD ac.timestamp,
          metadata := pc.metadata.getD ac.metadata,
          createdAt := ac.createdAt } ∧
      (s.updateIncident i pc).2.getIncident i = (s.updateIncident i pc).1 ∧
      (∀ j, j ≠ i →
        (s.updateIncident i pc).2.getIncident j = s.getIncident j)) ∧
    (s.getResponseAction i = some ad →
      (s.updateResponseAction i pd).1 = some
        { id := ad.id, name := pd.name.getD ad.name,
          trigger := pd.trigger.getD ad.trigger,
          status := pd.status.getD ad.status,
          incidentId := pd.incidentId.getD ad.incidentId,
          lastExecuted := pd.lastExecuted.getD ad.lastExecuted,
          metadata := pd.metadata.getD ad.metadata,
          createdAt := ad.createdAt } ∧
      (s.updateResponseAction i pd).2.getResponseAction i =
        (s.updateResponseAction i pd).1 ∧
      (∀ j, j ≠ i →
        (s.updateResponseAction i pd).2.getResponseAction j =
          s.getResponseAction j)) := by
  refine ⟨fun h => ?_, fun h => ?_, fun h => ?_, fun h => ?_⟩
  · have h' : findById Agent.id i s.agents = some aa := h
    have hid : Agent.id (applyAgentPatch aa pa) = i := by
      simpa [applyAgentPatch] using findById_id Agent.id i aa s.agents h'
    refine ⟨?_, ?_, ?_⟩
    · simp [MemStorage.updateAgent, h', applyAgentPatch]
    · simp [MemStorage.updateAgent, MemStorage.getAgent, h',
        findById_replaceById_eq Agent.id i _ hid]
    · intro j hj
      simp [MemStorage.updateAgent, MemStorage.getAgent, h',
        findById_replaceById_ne Agent.id i j _ hid hj]
  · have h' : findById Alert.id i s.alerts = some ab := h
    have hid : Alert.id (applyAlertPatch ab pb) = i := by
      simpa [applyAlertPatch] using findById_id Alert.id i ab s.alerts h'
    refine ⟨?_, ?_, ?_⟩
    · simp [MemStorage.updateAlert, h', applyAlertPatch]
    · simp [MemStorage.updateAlert, MemStorage.getAlert, h',
        findById_replaceById_eq Alert.id i _ hid]
    · intro j hj
      simp [MemStorage.updateAlert, MemStorage.getAlert, h',
        findById_replaceById_ne Alert.id i j _ hid hj]
  · have h' : findById Incident.id i s.incidents = some ac := h
    have hid : Incident.id (applyIncidentPatch ac pc) = i := by
      simpa [applyIncidentPatch] using
        findById_id Incident.id i ac s.incidents h'
    refine ⟨?_, ?_, ?_⟩
    · simp [MemStorage.updateIncident, h', applyIncidentPatch]
    · simp [MemStorage.updateIncident, MemStorage.getIncident, h',
        findById_replaceById_eq Incident.id i _ hid]
    · intro j hj
      simp [MemStorage.updateIncident, MemStorage.getIncident, h',
        findById_replaceById_ne Incident.id i j _ hid hj]
  · have h' : findById ResponseAction.id i s.responseActions = some ad := h
    have hid : ResponseAction.id (applyResponseActionPatch ad pd) = i := by
      simpa [applyResponseActionPatch] using
        findById_id ResponseAction.id i ad s.responseActions h'
    refine ⟨?_, ?_, ?_⟩
    · simp [MemStorage.updateResponseAction, h', applyResponseActionPatch]
    · simp [MemStorage.updateResponseAction, MemStorage.getResponseAction,
        h', findById_replaceById_eq ResponseAction.id i _ hid]
    · intro j hj
      simp [MemStorage.updateResponseAction, MemStorage.getResponseAction,
        h', findById_replaceById_ne ResponseAction.id i j _ hid hj]

theorem c10_update_frame_witness :
    (memOneAgent.updateAgent 1 { status := some "active" }).1 = some
      { id := 1, name := "Network Monitor", type := "network",
        status := "active", lastActive := 50, metadata := [],
        createdAt := 10 } ∧
    (memOneAgent.updateAgent 1
      { status := some "active" }).2.getAgent 2 = none := by
  have h := (c10_update_frame memOneAgent 1 agentW
    { status := some "active" } alertT1 {} incidentW {} raW {}).1 rfl
  exact ⟨h.1, by rw [h.2.2 2 (by decide)]; rfl⟩

end ATRO
